import Mathlib

/-!
Verification of the database assistant chatbot core.

This file gives a shallow embedding of the two core modules:

* `database_manager.py` — the query executor (`execute_query`), which
  opens a connection, executes one SQL statement against a PostgreSQL
  engine, classifies the statement lexically by its leading keyword, and
  shapes the outcome into a result dictionary;
* `azure_agent_manager.py` — the tool gateway (`_handle_tool_calls`,
  `db_call`) and the run orchestrator (`chat_with_master_agent`).

The database engine and the remote agent service are external
collaborators; they are modelled abstractly (an `Engine` structure, and a
`Service` structure holding the finite trace of replies the remote
service gives to successive calls).  Python exceptions are modelled with
`Except`: a raised exception is an `Except.error` that propagates to the
nearest handler.
-/

/-- Value stored in one table cell, as seen by the Python driver. -/
inductive SqlValue where
  | null : SqlValue
  | int : Int → SqlValue
  | str : String → SqlValue
  deriving DecidableEq, Repr

/-- State of the database cursor after a successful `cursor.execute`
call: the result column names (`cursor.description`), the rows
`fetchall` would return, and the affected row count (`cursor.rowcount`,
an integer that may be negative). -/
structure ExecState where
  columns : List String
  rows : List (List SqlValue)
  rowcount : Int
  deriving Repr

/-- Exception raised by the database layer: either a driver-level error
(`psycopg2.Error`, first `except` clause of `execute_query`) or any
other unexpected exception (second `except` clause). -/
inductive DbOops where
  | db : String → DbOops
  | other : String → DbOops
  deriving DecidableEq, Repr

/-- Abstract model of the database engine.  `connect` is `none` when
`psycopg2.connect` succeeds and `some oops` when it raises; `exec`
gives, for each statement text, either the resulting cursor state or
the exception `cursor.execute` raises. -/
structure Engine where
  connect : Option DbOops
  exec : String → Except DbOops ExecState

/-- Observable operation performed on the underlying store. -/
inductive DbOp where
  | exec : String → DbOp
  | commit : DbOp
  deriving DecidableEq, Repr

/-- Whitespace as Python `str.strip` removes it: space, tab, newline,
carriage return, vertical tab and form feed. -/
def pyIsSpace (c : Char) : Bool :=
  c == ' ' || c == '\t' || c == '\n' || c == '\r' || c == '\x0b' || c == '\x0c'

/-- ASCII upper-casing of one character, as Python `str.upper` acts on
the ASCII statements involved here. -/
def pyUpperChar (c : Char) : Char :=
  if 97 ≤ c.toNat ∧ c.toNat ≤ 122 then Char.ofNat (c.toNat - 32) else c

/-- Model of Python `str.strip()`: drop leading and trailing
whitespace. -/
def pyStrip (s : String) : String :=
  ⟨((s.data.dropWhile pyIsSpace).reverse.dropWhile pyIsSpace).reverse⟩

/-- Model of Python `str.upper()`. -/
def pyUpper (s : String) : String :=
  ⟨s.data.map pyUpperChar⟩

/-- Character-list version of the startswith test. -/
def charsBeginWith : List Char → List Char → Bool
  | [], _ => true
  | _ :: _, [] => false
  | a :: as, b :: bs => a == b && charsBeginWith as bs

/-- Model of Python `s.startswith(pre)`. -/
def pyBeginsWith (s pre : String) : Bool :=
  charsBeginWith pre.data s.data

/-- Result dictionary returned by `execute_query`.  The `message` key is
present only on the UPDATE path, hence the `Option`. -/
structure QueryResult where
  success : Bool
  data : Option (List (List (String × SqlValue)))
  row_count : Int
  columns : Option (List String)
  error : Option String
  message : Option String
  deriving DecidableEq, Repr

/-- Embedding of `DatabaseManager.execute_query`.  It mirrors the source
line by line: connect, `cursor.execute(query)` (before any
classification), then classify the trimmed upper-cased statement by its
leading keyword.  Alongside the result dictionary it returns the log of
operations the store saw, so that theorems can speak about whether the
store was touched.  Driver errors yield the error text verbatim; other
exceptions get the `Unexpected error: ` prefix. -/
def execute_query (eng : Engine) (query : String) : QueryResult × List DbOp :=
  match eng.connect with
  | some (DbOops.db e) =>
      (⟨false, none, 0, none, some e, none⟩, [])
  | some (DbOops.other e) =>
      (⟨false, none, 0, none, some ("Unexpected error: " ++ e), none⟩, [])
  | none =>
      match eng.exec query with
      | Except.error (DbOops.db e) =>
          (⟨false, none, 0, none, some e, none⟩, [DbOp.exec query])
      | Except.error (DbOops.other e) =>
          (⟨false, none, 0, none, some ("Unexpected error: " ++ e), none⟩,
           [DbOp.exec query])
      | Except.ok st =>
          if pyBeginsWith (pyUpper (pyStrip query)) "SELECT" then
            (⟨true, some (st.rows.map fun r => st.columns.zip r),
              (st.rows.length : Int), some st.columns, none, none⟩,
             [DbOp.exec query])
          else if pyBeginsWith (pyUpper (pyStrip query)) "UPDATE" then
            (⟨true, none, st.rowcount, none, none,
              some ("Updated " ++ toString st.rowcount ++ " row(s)")⟩,
             [DbOp.exec query, DbOp.commit])
          else
            (⟨false, none, 0, none,
              some "Unsupported query type. Only SELECT and UPDATE are allowed.",
              none⟩,
             [DbOp.exec query])

/-- Embedding of `AzureAgentManager.db_call`: a thin wrapper that runs
the query through the executor and returns its result dictionary. -/
def db_call (eng : Engine) (query : String) : QueryResult :=
  (execute_query eng query).1

/-- Fixed rejection dictionary for statements outside the
SELECT and UPDATE allow-list. -/
def unsupportedResult : QueryResult :=
  ⟨false, none, 0, none,
   some "Unsupported query type. Only SELECT and UPDATE are allowed.", none⟩

/-- JSON values, modelling the parse tree of the strings that
`json.dumps` / `json.loads` exchange with the remote service. -/
inductive Json where
  | null : Json
  | bool : Bool → Json
  | num : Int → Json
  | str : String → Json
  | arr : List Json → Json
  | obj : List (String × Json) → Json
  deriving Repr

/-- JSON encoding of one cell value. -/
def SqlValue.toJson : SqlValue → Json
  | SqlValue.null => Json.null
  | SqlValue.int n => Json.num n
  | SqlValue.str s => Json.str s

/-- JSON encoding of one row mapping (column name to value). -/
def rowToJson (row : List (String × SqlValue)) : Json :=
  Json.obj (row.map fun p => (p.1, p.2.toJson))

/-- JSON encoding of a result dictionary, as `json.dumps` serialises it
in `_handle_tool_calls`; the `message` key appears only when present. -/
def QueryResult.toJson (r : QueryResult) : Json :=
  Json.obj
    ([("success", Json.bool r.success),
      ("data",
        match r.data with
        | none => Json.null
        | some rows => Json.arr (rows.map rowToJson)),
      ("row_count", Json.num r.row_count),
      ("columns",
        match r.columns with
        | none => Json.null
        | some cs => Json.arr (cs.map Json.str)),
      ("error",
        match r.error with
        | none => Json.null
        | some e => Json.str e)]
     ++ (match r.message with
         | none => []
         | some m => [("message", Json.str m)]))

/-- Tool invocation request, as delivered in the requires-action payload
of a run.  `arguments` holds the result of parsing the JSON arguments
string into an object of string values: `none` models an arguments
string that is not valid JSON, on which `json.loads` raises. -/
structure ToolCall where
  id : String
  name : String
  arguments : Option (List (String × String))
  deriving Repr

/-- Tool output paired with the originating invocation id; `output` is
the JSON-encoded result dictionary. -/
structure ToolOutput where
  tool_call_id : String
  output : Json
  deriving Repr

/-- Embedding of `AzureAgentManager._handle_tool_calls`.  For each call
naming `db_call` it parses the arguments (raising if they are not valid
JSON), extracts `query` with the empty string as default, runs
`db_call`, and appends the JSON-encoded result paired with the call id.
Calls with any other tool name are skipped without an output. -/
def handle_tool_calls (eng : Engine) : List ToolCall → Except String (List ToolOutput)
  | [] => Except.ok []
  | c :: rest =>
    if c.name == "db_call" then
      match c.arguments with
      | none => Except.error "invalid json in tool call arguments"
      | some args =>
        let q := (args.lookup "query").getD ""
        let r := db_call eng q
        match handle_tool_calls eng rest with
        | Except.error e => Except.error e
        | Except.ok outs => Except.ok (⟨c.id, r.toJson⟩ :: outs)
    else handle_tool_calls eng rest

/-- Output the gateway produces for one `db_call` invocation request:
the JSON-encoded result of running the extracted query, paired with the
invocation id. -/
def gateway_output (eng : Engine) (c : ToolCall) : ToolOutput :=
  ⟨c.id, (db_call eng (((c.arguments.getD []).lookup "query").getD "")).toJson⟩

/-- Run lifecycle status, after `azure.ai.projects.models.RunStatus`. -/
inductive RunStatus where
  | queued
  | in_progress
  | requires_action
  | completed
  | failed
  | cancelled
  | expired
  deriving DecidableEq, Repr

/-- String rendering of a run status, as a Python f-string renders the
string-valued enum. -/
def RunStatus.text : RunStatus → String
  | RunStatus.queued => "queued"
  | RunStatus.in_progress => "in_progress"
  | RunStatus.requires_action => "requires_action"
  | RunStatus.completed => "completed"
  | RunStatus.failed => "failed"
  | RunStatus.cancelled => "cancelled"
  | RunStatus.expired => "expired"

/-- Statuses for which the polling loop keeps going, matching the list
`[RunStatus.QUEUED, RunStatus.IN_PROGRESS, RunStatus.REQUIRES_ACTION]`
in the source. -/
def RunStatus.isActive : RunStatus → Bool
  | RunStatus.queued => true
  | RunStatus.in_progress => true
  | RunStatus.requires_action => true
  | _ => false

/-- Snapshot of a run returned by one `get_run` call: its status and,
for a requires-action run, the pending tool calls of its action
payload. -/
structure RunSnapshot where
  status : RunStatus
  tool_calls : List ToolCall

/-- Message on a thread; `content` models the list of content blocks,
each rendered to its text. -/
structure ThreadMessage where
  role : String
  content : List String

/-- Finite trace of the replies the remote agent service gives during
one conversational turn.  Each field is the outcome of the successive
calls the orchestrator makes: an `Except.error` models that call
raising.  `polls` is consumed by successive `get_run` calls and
`submits` by successive `submit_tool_outputs_to_run` calls; an
exhausted trace models the service failing to reply. -/
structure Service where
  create_thread : Except String Unit
  create_message : String → Except String Unit
  create_run : Except String RunStatus
  polls : List (Except String RunSnapshot)
  submits : List (Except String RunStatus)
  list_messages : Except String (List ThreadMessage)

/-- Embedding of the polling loop of `chat_with_master_agent`: while the
status is active, re-fetch the run; on requires-action, handle the tool
calls and submit the outputs, continuing from the status of the run the
submission returns.  Returns the terminal status, or the first raised
exception. -/
def poll_loop (eng : Engine) (status : RunStatus)
    (polls : List (Except String RunSnapshot))
    (submits : List (Except String RunStatus)) : Except String RunStatus :=
  if status.isActive then
    match polls with
    | [] => Except.error "no reply from service while polling run"
    | Except.error e :: _ => Except.error e
    | Except.ok snap :: rest =>
      if snap.status = RunStatus.requires_action then
        match handle_tool_calls eng snap.tool_calls with
        | Except.error e => Except.error e
        | Except.ok _ =>
          match submits with
          | [] => Except.error "no reply from service while submitting tool outputs"
          | Except.error e :: _ => Except.error e
          | Except.ok st :: srest => poll_loop eng st rest srest
      else poll_loop eng snap.status rest submits
  else Except.ok status

/-- Body of `chat_with_master_agent` inside its `try` block: create a
thread, post the user message, start the run, poll to a terminal
status, then extract the reply.  On a completed run it returns the text
of the first assistant message in the listing (the listing is newest
first, so this is the most recent one), or the fixed sentinel when no
assistant message exists; on any other terminal status it returns the
formatted failure string. -/
def converse_attempt (svc : Service) (eng : Engine) (user_message : String) :
    Except String String :=
  match svc.create_thread with
  | Except.error e => Except.error e
  | Except.ok _ =>
    match svc.create_message user_message with
    | Except.error e => Except.error e
    | Except.ok _ =>
      match svc.create_run with
      | Except.error e => Except.error e
      | Except.ok st0 =>
        match poll_loop eng st0 svc.polls svc.submits with
        | Except.error e => Except.error e
        | Except.ok fin =>
          if fin = RunStatus.completed then
            match svc.list_messages with
            | Except.error e => Except.error e
            | Except.ok msgs =>
              match msgs.find? (fun m => m.role == "assistant") with
              | some m =>
                match m.content with
                | [] => Except.error "list index out of range"
                | t :: _ => Except.ok t
              | none => Except.ok "No response received from agent"
          else Except.ok ("Run failed with status: " ++ fin.text)

/-- Embedding of `AzureAgentManager.chat_with_master_agent`: the whole
sequence runs inside a `try` whose handler converts any raised
exception into the string `Error: ` followed by its message. -/
def chat_with_master_agent (svc : Service) (eng : Engine)
    (user_message : String) : String :=
  match converse_attempt svc eng user_message with
  | Except.ok s => s
  | Except.error e => "Error: " ++ e

/-! Concrete fixtures used to instantiate the theorems below. -/

/-- Engine that accepts any statement and reports an empty cursor. -/
def engAccepting : Engine :=
  { connect := none, exec := fun _ => Except.ok ⟨[], [], 0⟩ }

/-- Engine that answers every statement with a two-column, one-row
result set. -/
def engSel : Engine :=
  { connect := none,
    exec := fun _ =>
      Except.ok ⟨["id", "name"], [[SqlValue.int 1, SqlValue.str "bob"]], 0⟩ }

/-- Engine on which every statement affects three rows. -/
def engUpd : Engine :=
  { connect := none, exec := fun _ => Except.ok ⟨[], [], 3⟩ }

/-- Engine whose connection attempt raises a driver error. -/
def engConnDb : Engine :=
  { connect := some (DbOops.db "connection refused"),
    exec := fun _ => Except.ok ⟨[], [], 0⟩ }

/-- Engine whose connection attempt raises a non-driver exception. -/
def engConnOther : Engine :=
  { connect := some (DbOops.other "boom"),
    exec := fun _ => Except.ok ⟨[], [], 0⟩ }

/-- Engine on which executing any statement raises a driver error. -/
def engExecDb : Engine :=
  { connect := none, exec := fun _ => Except.error (DbOops.db "syntax error") }

/-- Engine on which executing any statement raises a non-driver
exception. -/
def engExecOther : Engine :=
  { connect := none, exec := fun _ => Except.error (DbOops.other "boom") }

/-- Service whose run is created already in a failed terminal state. -/
def svcFail : Service :=
  { create_thread := Except.ok ()
    create_message := fun _ => Except.ok ()
    create_run := Except.ok RunStatus.failed
    polls := []
    submits := []
    list_messages := Except.ok [] }

/-- Service whose run completes at once with one assistant reply. -/
def svcDone : Service :=
  { create_thread := Except.ok ()
    create_message := fun _ => Except.ok ()
    create_run := Except.ok RunStatus.completed
    polls := []
    submits := []
    list_messages := Except.ok [⟨"assistant", ["42"]⟩] }

/-! Theorems about the query executor. -/

/-- C1: the claim fails on the code.  At the failing input
`DELETE FROM users` (any statement outside the allow-list behaves the
same) `execute_query` does return the fixed unsupported-type rejection
with `success = false`, but the store is touched first:
`cursor.execute(query)` on line 26 of `database_manager.py` runs before
the keyword classification on lines 29 and 43, so the statement is
executed against the store before the rejection is returned. -/
theorem c1_unsupported_statement_still_executed :
    (execute_query engAccepting "DELETE FROM users").1 = unsupportedResult ∧
    (execute_query engAccepting "DELETE FROM users").2
      = [DbOp.exec "DELETE FROM users"] := by
  exact ⟨by decide, by decide⟩

/-- C3: for a SELECT statement whose execution yields rows `st.rows`
with column names `st.columns`, the result has `success = true`,
`error = none`, `columns` equal to the statement column names in order,
`row_count` equal to the number of rows, and `data` an ordered sequence
of one mapping per row, pairing each row positionally with the column
names, so that every mapping carries exactly the column names as its
keys. -/
theorem c3_select_result_shape (eng : Engine) (q : String) (st : ExecState)
    (hc : eng.connect = none) (he : eng.exec q = Except.ok st)
    (hs : pyBeginsWith (pyUpper (pyStrip q)) "SELECT" = true)
    (hlen : ∀ r ∈ st.rows, st.columns.length ≤ r.length) :
    (execute_query eng q).1.success = true ∧
    (execute_query eng q).1.error = none ∧
    (execute_query eng q).1.columns = some st.columns ∧
    (execute_query eng q).1.data
      = some (st.rows.map fun r => st.columns.zip r) ∧
    (execute_query eng q).1.row_count = (st.rows.length : Int) ∧
    (st.rows.map fun r => st.columns.zip r).length = st.rows.length ∧
    ∀ m ∈ st.rows.map fun r => st.columns.zip r,
      m.map Prod.fst = st.columns := by
  have hq : (execute_query eng q).1
      = ⟨true, some (st.rows.map fun r => st.columns.zip r),
         (st.rows.length : Int), some st.columns, none, none⟩ := by
    simp [execute_query, hc, he, hs]
  refine ⟨by rw [hq], by rw [hq], by rw [hq], by rw [hq], by rw [hq],
          by simp, ?_⟩
  intro m hm
  obtain ⟨r, hr, rfl⟩ := List.mem_map.mp hm
  exact List.map_fst_zip _ _ (hlen r hr)

/-- Witness for C3 on a concrete engine and SELECT statement. -/
theorem c3_select_result_shape_witness :
    (execute_query engSel "SELECT id, name FROM users").1.success = true ∧
    (execute_query engSel "SELECT id, name FROM users").1.error = none ∧
    (execute_query engSel "SELECT id, name FROM users").1.columns
      = some ["id", "name"] ∧
    (execute_query engSel "SELECT id, name FROM users").1.data
      = some ([[SqlValue.int 1, SqlValue.str "bob"]].map
          fun r => ["id", "name"].zip r) ∧
    (execute_query engSel "SELECT id, name FROM users").1.row_count
      = (([[SqlValue.int 1, SqlValue.str "bob"]] : List (List SqlValue)).length : Int) ∧
    (([[SqlValue.int 1, SqlValue.str "bob"]].map
        fun r => ["id", "name"].zip r)).length
      = ([[SqlValue.int 1, SqlValue.str "bob"]] : List (List SqlValue)).length ∧
    ∀ m ∈ [[SqlValue.int 1, SqlValue.str "bob"]].map
        fun r => ["id", "name"].zip r,
      m.map Prod.fst = ["id", "name"] := by
  exact c3_select_result_shape engSel "SELECT id, name FROM users"
    ⟨["id", "name"], [[SqlValue.int 1, SqlValue.str "bob"]], 0⟩
    rfl rfl (by decide) (by decide)

/-- C4: the executor returns every failure as data.  A driver error on
connect or execute yields `success = false`, `row_count = 0`,
`data = none` with the error text verbatim; any other exception yields
the same shape with the `Unexpected error: ` prefix.  The embedding is
a total function, so no failure escapes as an exception. -/
theorem c4_failures_are_data (eng : Engine) (q m : String) :
    (eng.connect = some (DbOops.db m) →
       (execute_query eng q).1 = ⟨false, none, 0, none, some m, none⟩) ∧
    (eng.connect = some (DbOops.other m) →
       (execute_query eng q).1
         = ⟨false, none, 0, none, some ("Unexpected error: " ++ m), none⟩) ∧
    (eng.connect = none → eng.exec q = Except.error (DbOops.db m) →
       (execute_query eng q).1 = ⟨false, none, 0, none, some m, none⟩) ∧
    (eng.connect = none → eng.exec q = Except.error (DbOops.other m) →
       (execute_query eng q).1
         = ⟨false, none, 0, none, some ("Unexpected error: " ++ m), none⟩) := by
  refine ⟨fun hc => by simp [execute_query, hc],
          fun hc => by simp [execute_query, hc],
          fun hc he => by simp [execute_query, hc, he],
          fun hc he => by simp [execute_query, hc, he]⟩

/-- Witness for C4 on four concrete failing engines. -/
theorem c4_failures_are_data_witness :
    (execute_query engConnDb "SELECT 1").1
      = ⟨false, none, 0, none, some "connection refused", none⟩ ∧
    (execute_query engConnOther "SELECT 1").1
      = ⟨false, none, 0, none, some ("Unexpected error: " ++ "boom"), none⟩ ∧
    (execute_query engExecDb "SELECT 1").1
      = ⟨false, none, 0, none, some "syntax error", none⟩ ∧
    (execute_query engExecOther "SELECT 1").1
      = ⟨false, none, 0, none, some ("Unexpected error: " ++ "boom"), none⟩ :=
  ⟨(c4_failures_are_data engConnDb "SELECT 1" "connection refused").1 rfl,
   (c4_failures_are_data engConnOther "SELECT 1" "boom").2.1 rfl,
   (c4_failures_are_data engExecDb "SELECT 1" "syntax error").2.2.1 rfl rfl,
   (c4_failures_are_data engExecOther "SELECT 1" "boom").2.2.2 rfl rfl⟩

/-- C8: for an UPDATE statement whose execution reports
`st.rowcount` affected rows, the executor commits, and the result has
`success = true`, `data = none`, `columns = none`, `row_count` equal to
the affected-row count, and a confirmation message containing that
count. -/
theorem c8_update_commits_and_reports (eng : Engine) (q : String)
    (st : ExecState)
    (hc : eng.connect = none) (he : eng.exec q = Except.ok st)
    (hsel : pyBeginsWith (pyUpper (pyStrip q)) "SELECT" = false)
    (hupd : pyBeginsWith (pyUpper (pyStrip q)) "UPDATE" = true) :
    (execute_query eng q).1
      = ⟨true, none, st.rowcount, none, none,
         some ("Updated " ++ toString st.rowcount ++ " row(s)")⟩ ∧
    (execute_query eng q).2 = [DbOp.exec q, DbOp.commit] ∧
    ∃ pre post, ("Updated " ++ toString st.rowcount ++ " row(s)")
      = pre ++ toString st.rowcount ++ post := by
  refine ⟨by simp [execute_query, hc, he, hsel, hupd],
          by simp [execute_query, hc, he, hsel, hupd],
          ⟨"Updated ", " row(s)", rfl⟩⟩

/-- Witness for C8 on a concrete engine reporting three affected rows. -/
theorem c8_update_commits_and_reports_witness :
    (execute_query engUpd "UPDATE t SET x = 1").1
      = ⟨true, none, 3, none, none,
         some ("Updated " ++ toString (3 : Int) ++ " row(s)")⟩ ∧
    (execute_query engUpd "UPDATE t SET x = 1").2
      = [DbOp.exec "UPDATE t SET x = 1", DbOp.commit] ∧
    ∃ pre post, ("Updated " ++ toString (3 : Int) ++ " row(s)")
      = pre ++ toString (3 : Int) ++ post := by
  exact c8_update_commits_and_reports engUpd "UPDATE t SET x = 1"
    ⟨[], [], 3⟩ rfl rfl (by decide) (by decide)

/-- C10: on every path the result dictionary satisfies
`success = true` exactly when `error = none`, and a failed result
always has `data = none` and `row_count = 0`. -/
theorem c10_result_invariant (eng : Engine) (q : String) :
    ((execute_query eng q).1.success = true ↔
       (execute_query eng q).1.error = none) ∧
    ((execute_query eng q).1.success = false →
       (execute_query eng q).1.data = none ∧
       (execute_query eng q).1.row_count = 0) := by
  rcases hc : eng.connect with _ | (e | e)
  · rcases he : eng.exec q with (e | e) | st
    · simp [execute_query, hc, he]
    · simp [execute_query, hc, he]
    · by_cases hsel : pyBeginsWith (pyUpper (pyStrip q)) "SELECT"
      · simp [execute_query, hc, he, hsel]
      · by_cases hupd : pyBeginsWith (pyUpper (pyStrip q)) "UPDATE"
        · simp [execute_query, hc, he, hsel, hupd]
        · simp [execute_query, hc, he, hsel, hupd]
  · simp [execute_query, hc]
  · simp [execute_query, hc]

/-! Theorems about the tool gateway. -/

/-- Gateway characterisation: when every request naming `db_call` has
arguments that parse as JSON, the gateway succeeds and produces, in
order, exactly one output per `db_call` request and none for any other
tool name. -/
theorem handle_tool_calls_eq (eng : Engine) (calls : List ToolCall)
    (hp : ∀ c ∈ calls, c.name = "db_call" → c.arguments ≠ none) :
    handle_tool_calls eng calls
      = Except.ok ((calls.filter fun c => c.name == "db_call").map
          (gateway_output eng)) := by
  induction calls with
  | nil => rfl
  | cons c rest ih =>
    have hrest : ∀ d ∈ rest, d.name = "db_call" → d.arguments ≠ none :=
      fun d hd => hp d (List.mem_cons_of_mem _ hd)
    by_cases hname : c.name == "db_call"
    · have hne : c.arguments ≠ none :=
        hp c (List.mem_cons_self _ _) (eq_of_beq hname)
      cases harg : c.arguments with
      | none => exact absurd harg hne
      | some args =>
        simp [handle_tool_calls, hname, harg, ih hrest, List.filter_cons,
          gateway_output]
    · simp [handle_tool_calls, hname, ih hrest, List.filter_cons]

/-- C6: for a batch of requests all naming `db_call`, each with
arguments that parse as JSON, the gateway returns exactly one output
per request, the outputs carry the request ids in order, and every
output body is the JSON encoding of a result dictionary. -/
theorem c6_gateway_batch (eng : Engine) (calls : List ToolCall)
    (hn : ∀ c ∈ calls, c.name = "db_call")
    (hp : ∀ c ∈ calls, c.arguments ≠ none) :
    ∃ outs, handle_tool_calls eng calls = Except.ok outs ∧
      outs = calls.map (gateway_output eng) ∧
      outs.length = calls.length ∧
      outs.map ToolOutput.tool_call_id = calls.map ToolCall.id ∧
      ∀ o ∈ outs, ∃ r : QueryResult, o.output = r.toJson := by
  have hfil : (calls.filter fun c => c.name == "db_call") = calls :=
    List.filter_eq_self.mpr (fun c hc => by simp [hn c hc])
  refine ⟨calls.map (gateway_output eng), ?_, rfl, by simp, ?_, ?_⟩
  · rw [handle_tool_calls_eq eng calls (fun c hc _ => hp c hc), hfil]
  · simp [List.map_map, Function.comp, gateway_output]
  · intro o ho
    obtain ⟨c, _, rfl⟩ := List.mem_map.mp ho
    exact ⟨db_call eng (((c.arguments.getD []).lookup "query").getD ""), rfl⟩

/-- Witness for C6 on a concrete two-request batch. -/
theorem c6_gateway_batch_witness :
    ∃ outs, handle_tool_calls engAccepting
        [⟨"call_a", "db_call", some [("query", "SELECT 1")]⟩,
         ⟨"call_b", "db_call", some []⟩] = Except.ok outs ∧
      outs = [⟨"call_a", "db_call", some [("query", "SELECT 1")]⟩,
              (⟨"call_b", "db_call", some []⟩ : ToolCall)].map
          (gateway_output engAccepting) ∧
      outs.length
        = [⟨"call_a", "db_call", some [("query", "SELECT 1")]⟩,
           (⟨"call_b", "db_call", some []⟩ : ToolCall)].length ∧
      outs.map ToolOutput.tool_call_id
        = [⟨"call_a", "db_call", some [("query", "SELECT 1")]⟩,
           (⟨"call_b", "db_call", some []⟩ : ToolCall)].map ToolCall.id ∧
      ∀ o ∈ outs, ∃ r : QueryResult, o.output = r.toJson := by
  exact c6_gateway_batch engAccepting
    [⟨"call_a", "db_call", some [("query", "SELECT 1")]⟩,
     ⟨"call_b", "db_call", some []⟩] (by decide) (by decide)

/-- C5 counterexample: a requires-action payload can hold a pending
invocation request whose tool name is not `db_call`; the gateway emits
no output for it, so the batch submitted back to the run does not give
every pending request an output.  Here one pending request yields an
empty submission. -/
theorem c5_counterexample_skipped_request :
    handle_tool_calls engAccepting [⟨"call_1", "other_tool", some []⟩]
      = Except.ok [] := rfl

/-- C5 amended: in the batch the loop submits back to the run, every
pending request naming `db_call` (with arguments that parse as JSON)
receives exactly one output paired with its invocation id, in request
order, while requests with any other tool name receive none. -/
theorem c5_db_call_requests_one_output (eng : Engine) (calls : List ToolCall)
    (hp : ∀ c ∈ calls, c.name = "db_call" → c.arguments ≠ none) :
    ∃ outs, handle_tool_calls eng calls = Except.ok outs ∧
      outs.map ToolOutput.tool_call_id
        = (calls.filter fun c => c.name == "db_call").map ToolCall.id := by
  refine ⟨_, handle_tool_calls_eq eng calls hp, ?_⟩
  simp [List.map_map, Function.comp, gateway_output]

/-- Witness for the amended C5 on a mixed concrete batch. -/
theorem c5_db_call_requests_one_output_witness :
    ∃ outs, handle_tool_calls engAccepting
        [⟨"c1", "db_call", some [("query", "SELECT 1")]⟩,
         ⟨"c2", "other_tool", none⟩] = Except.ok outs ∧
      outs.map ToolOutput.tool_call_id
        = ([⟨"c1", "db_call", some [("query", "SELECT 1")]⟩,
            (⟨"c2", "other_tool", none⟩ : ToolCall)].filter
              fun c => c.name == "db_call").map ToolCall.id := by
  exact c5_db_call_requests_one_output engAccepting
    [⟨"c1", "db_call", some [("query", "SELECT 1")]⟩,
     ⟨"c2", "other_tool", none⟩] (by decide)

/-- C7: a `db_call` request whose parsed arguments lack the `query` key
does not fail the batch: the gateway still succeeds, the request is
answered with the result of running the empty query, and the empty
query is answered downstream by the fixed unsupported-type rejection
(when the engine itself does not raise on it), not by an exception. -/
theorem c7_missing_query_defaults (eng : Engine) (calls : List ToolCall)
    (hp : ∀ c ∈ calls, c.name = "db_call" → c.arguments ≠ none) :
    (∃ outs, handle_tool_calls eng calls = Except.ok outs) ∧
    (∀ c ∈ calls, c.name = "db_call" → ∀ args, c.arguments = some args →
       args.lookup "query" = none →
       gateway_output eng c = ⟨c.id, (db_call eng "").toJson⟩) ∧
    (∀ st : ExecState, eng.connect = none → eng.exec "" = Except.ok st →
       db_call eng "" = unsupportedResult) := by
  refine ⟨⟨_, handle_tool_calls_eq eng calls hp⟩, ?_, ?_⟩
  · intro c _ _ args harg hq
    simp [gateway_output, harg, hq]
  · intro st hc he
    have h1 : pyBeginsWith (pyUpper (pyStrip "")) "SELECT" = false := by decide
    have h2 : pyBeginsWith (pyUpper (pyStrip "")) "UPDATE" = false := by decide
    simp [db_call, execute_query, hc, he, h1, h2, unsupportedResult]

/-- Witness for C7 on a concrete request missing the `query` key. -/
theorem c7_missing_query_defaults_witness :
    (∃ outs, handle_tool_calls engAccepting
        [⟨"call_1", "db_call", some [("other", "x")]⟩] = Except.ok outs) ∧
    gateway_output engAccepting ⟨"call_1", "db_call", some [("other", "x")]⟩
      = ⟨"call_1", (db_call engAccepting "").toJson⟩ ∧
    db_call engAccepting "" = unsupportedResult := by
  have h := c7_missing_query_defaults engAccepting
      [⟨"call_1", "db_call", some [("other", "x")]⟩] (by decide)
  refine ⟨h.1, ?_, ?_⟩
  · exact h.2.1 _ (by simp) rfl _ rfl (by decide)
  · exact h.2.2 ⟨[], [], 0⟩ rfl rfl

/-! Theorems about the run orchestrator. -/

/-- C2: for every input message and every (finite) behaviour of the
remote service and engine, the orchestrator returns a string: either
the successful outcome of the turn, or, when any step of the sequence
raises, exactly the string `Error: ` followed by the message of the
exception that the top-level handler caught. -/
theorem c2_converse_always_string (svc : Service) (eng : Engine)
    (msg : String) :
    (∃ e, converse_attempt svc eng msg = Except.error e ∧
       chat_with_master_agent svc eng msg = "Error: " ++ e) ∨
    (∃ s, converse_attempt svc eng msg = Except.ok s ∧
       chat_with_master_agent svc eng msg = s) := by
  cases h : converse_attempt svc eng msg with
  | error e => exact Or.inl ⟨e, rfl, by simp [chat_with_master_agent, h]⟩
  | ok s => exact Or.inr ⟨s, rfl, by simp [chat_with_master_agent, h]⟩

/-- C9: when the poll loop ends at a terminal status without raising,
a completed run makes the orchestrator list the thread messages and
return the text of the first assistant message of the listing (the
most recent one, the listing being newest first), or the fixed
`No response received from agent` sentinel when no assistant message
exists; any other terminal status yields the formatted failure string,
which contains the status text. -/
theorem c9_terminal_status (svc : Service) (eng : Engine) (msg : String)
    (st0 fin : RunStatus)
    (h1 : svc.create_thread = Except.ok ())
    (h2 : svc.create_message msg = Except.ok ())
    (h3 : svc.create_run = Except.ok st0)
    (h4 : poll_loop eng st0 svc.polls svc.submits = Except.ok fin) :
    (∀ msgs m t ts, fin = RunStatus.completed →
       svc.list_messages = Except.ok msgs →
       msgs.find? (fun x => x.role == "assistant") = some m →
       m.content = t :: ts →
       chat_with_master_agent svc eng msg = t) ∧
    (∀ msgs, fin = RunStatus.completed →
       svc.list_messages = Except.ok msgs →
       msgs.find? (fun x => x.role == "assistant") = none →
       chat_with_master_agent svc eng msg
         = "No response received from agent") ∧
    (fin ≠ RunStatus.completed →
       chat_with_master_agent svc eng msg
         = "Run failed with status: " ++ fin.text ∧
       ∃ pre, chat_with_master_agent svc eng msg = pre ++ fin.text) := by
  refine ⟨?_, ?_, ?_⟩
  · intro msgs m t ts hfin hm hfind hcont
    simp [chat_with_master_agent, converse_attempt, h1, h2, h3, h4, hfin,
      hm, hfind, hcont]
  · intro msgs hfin hm hfind
    simp [chat_with_master_agent, converse_attempt, h1, h2, h3, h4, hfin,
      hm, hfind]
  · intro hfin
    have hres : chat_with_master_agent svc eng msg
        = "Run failed with status: " ++ fin.text := by
      simp [chat_with_master_agent, converse_attempt, h1, h2, h3, h4, hfin]
    exact ⟨hres, "Run failed with status: ", hres⟩

/-- Witness for C9: one service completing with an assistant reply and
one ending in a failed terminal status. -/
theorem c9_terminal_status_witness :
    chat_with_master_agent svcDone engAccepting "hi" = "42" ∧
    chat_with_master_agent svcFail engAccepting "hi"
      = "Run failed with status: " ++ RunStatus.text RunStatus.failed := by
  constructor
  · exact (c9_terminal_status svcDone engAccepting "hi"
      RunStatus.completed RunStatus.completed rfl rfl rfl rfl).1
      [⟨"assistant", ["42"]⟩] ⟨"assistant", ["42"]⟩ "42" [] rfl rfl rfl rfl
  · exact ((c9_terminal_status svcFail engAccepting "hi"
      RunStatus.failed RunStatus.failed rfl rfl rfl rfl).2.2 (by decide)).1
